import Mathlib

/-!
Verification development for the nx-make hello-world example
(`src/examples/hello-world/hello.c` and `src/examples/hello-world/test.c`).

The C program is shallowly embedded as follows:
* C `int` values are `Int`s constrained to the 32-bit two's-complement range;
  `int` addition is mathematical addition followed by two's-complement
  wraparound (`wrap32`), the behaviour of machine-integer arithmetic.
* `printf` calls that end in a newline are modelled as appending lines to a
  `List String` stdout stream (the trailing `"\n"` separators become list
  structure; the `"\n✓ ..."` print contributes an empty line first).
* `assert` is modelled by `Except`: a failing assertion aborts the process,
  carrying the output produced so far; a succeeding one lets execution
  continue.
-/

/-- Two's-complement wraparound into the 32-bit signed range
`[-2^31, 2^31 - 1]`, the behaviour of `int` arithmetic on the machine. -/
def wrap32 (x : Int) : Int := (x + 2 ^ 31) % 2 ^ 32 - 2 ^ 31

/-- `x` is representable as a C 32-bit `int`. -/
def inIntRange (x : Int) : Prop := -(2 ^ 31) ≤ x ∧ x ≤ 2 ^ 31 - 1

instance (x : Int) : Decidable (inIntRange x) := by
  unfold inIntRange; infer_instance

/-- `int add(int a, int b) { return a + b; }` from `hello.c`, with
machine-integer (two's-complement) arithmetic. -/
def add (a b : Int) : Int := wrap32 (a + b)

/-- Modelled from the spec: `multiply` of the external math library
(`../math-lib/math_ops.h`), whose source is not part of this repository's
core; the spec records only that it is integer multiplication with
`multiply(5,3) = 15`. -/
def multiply (a b : Int) : Int := a * b

/-- Modelled from the spec: `power` of the external math library
(`../math-lib/math_ops.h`), whose source is not part of this repository's
core; the spec records only that it is exponentiation with
`power(2,8) = 256`. -/
def power (b : Int) (e : Nat) : Int := b ^ e

/-- Modelled from the spec: `divide` of the external math library
(`../math-lib/math_ops.h`), whose source is not part of this repository's
core; the spec records only `divide(10.0, 4.0) = 2.50`. Exact rational
division stands in for `double` division (the one use, `10.0 / 4.0 = 2.5`,
is exactly representable in binary floating point). -/
def divide (a b : Rat) : Rat := a / b

/-- Floor of a nonnegative rational, computed on the numerator and
denominator (integer division truncates toward zero, which is the floor
for nonnegative values). -/
def ratFloor (q : Rat) : Int := ⌊q⌋

/-- `printf`'s `"%.2f"` rendering of a nonnegative value: round to the
nearest hundredth and print with exactly two digits after the point. -/
def fmt2 (x : Rat) : String :=
  let n : Int := ratFloor (x * 100 + 1 / 2)
  let whole : Int := n / 100
  let frac : Nat := (n % 100).toNat
  toString whole ++ "." ++ (if frac < 10 then "0" else "") ++ toString frac

/-- The stdout lines printed by `print_hello` in `hello.c`. -/
def print_hello : List String :=
  [ "Hello, World from nx-make!"
  , "Math demo: 5 * 3 = " ++ toString (multiply 5 3)
  , "Math demo: 2^8 = " ++ toString (power 2 8)
  , "Math demo: 10 / 4 = " ++ fmt2 (divide 10 4) ]

/-- `test_add` from `test.c`, parametrized by the `add` implementation it
calls (the source calls `add`; the parameter lets theorems speak about
which implementations pass the asserts). Takes the stdout lines produced
so far and yields the extended stream, or aborts (`Except.error`) at the
first failing assertion, carrying the output printed before the abort. -/
def test_add (f : Int → Int → Int) (out : List String) :
    Except (List String) (List String) :=
  let out := out ++ ["Testing add function..."]
  if f 2 3 = 5 then
    if f (-1) 1 = 0 then
      if f 0 0 = 0 then
        Except.ok (out ++ ["  ✓ All add tests passed"])
      else Except.error out
    else Except.error out
  else Except.error out

/-- `main_run` (the C `main`) from `test.c`, parametrized like `test_add`: prints
`"Running tests..."`, runs `test_add`, then prints the blank line and
`"✓ All tests passed!"` and returns exit code `0`; an aborted assertion
propagates as `Except.error` with the output printed before the abort. -/
def main_run (f : Int → Int → Int) :
    Except (List String) (List String × Int) :=
  match test_add f ["Running tests..."] with
  | Except.error o => Except.error o
  | Except.ok o => Except.ok (o ++ ["", "✓ All tests passed!"], 0)

/-- The two's-complement wrap is the identity on representable values. -/
theorem wrap32_eq_of_inIntRange (x : Int) (h : inIntRange x) :
    wrap32 x = x := by
  unfold wrap32
  unfold inIntRange at h
  omega

/-- C1: for all integers `a` and `b` (representable as C `int`s) whose sum
does not overflow, `add a b` equals the mathematical sum `a + b`; the
overflowing case is left unspecified by the spec. -/
theorem add_eq_sum (a b : Int) (_ha : inIntRange a) (_hb : inIntRange b)
    (hab : inIntRange (a + b)) : add a b = a + b := by
  unfold add
  exact wrap32_eq_of_inIntRange _ hab

/-- Witness for C1 at `a = 2`, `b = 3`. -/
theorem add_eq_sum_witness :
    inIntRange 2 ∧ inIntRange 3 ∧ inIntRange (2 + 3) ∧
      add 2 3 = 2 + 3 := by
  refine ⟨by decide, by decide, by decide, add_eq_sum 2 3 ?_ ?_ ?_⟩ <;> decide

/-- C2: the three literal test scenarios of `test.c` hold:
`add 2 3 = 5`, `add (-1) 1 = 0`, `add 0 0 = 0`. -/
theorem add_literal_scenarios :
    add 2 3 = 5 ∧ add (-1) 1 = 0 ∧ add 0 0 = 0 := by
  refine ⟨?_, ?_, ?_⟩ <;> decide

/-- C3: under the actual `add`, every assertion in `test_add` succeeds, so
`test_add` never aborts (whatever output precedes it); and the only way
`main_run` (the C `main`) can abort is that `test_add` aborted — an assertion failure inside
`test_add` is the program's only failure mode. -/
theorem test_add_never_aborts :
    (∀ out : List String,
        test_add add out =
          Except.ok (out ++ ["Testing add function...",
                             "  ✓ All add tests passed"])) ∧
    (∀ (f : Int → Int → Int) (o : List String),
        main_run f = Except.error o →
          test_add f ["Running tests..."] = Except.error o) := by
  constructor
  · intro out
    show test_add add out = _
    have h1 : add 2 3 = 5 := by decide
    have h2 : add (-1) 1 = 0 := by decide
    have h3 : add 0 0 = 0 := by decide
    simp [test_add, h1, h2, h3]
  · intro f o h
    unfold main_run at h
    cases heq : test_add f ["Running tests..."] with
    | error o' => rw [heq] at h; cases h; rfl
    | ok o' => rw [heq] at h; cases h

/-- Witness for C3: the first part at `out = []`, the second at the
constant-zero implementation, which fails the first assertion. -/
theorem test_add_never_aborts_witness :
    test_add add [] =
      Except.ok ["Testing add function...", "  ✓ All add tests passed"] ∧
    test_add (fun _ _ => 0) ["Running tests..."] =
      Except.error ["Running tests...", "Testing add function..."] :=
  ⟨test_add_never_aborts.1 [],
   test_add_never_aborts.2 (fun _ _ => 0)
     ["Running tests...", "Testing add function..."] rfl⟩

/-- C4: whenever `main_run` (the C `main`) finishes without an assertion abort, its exit code
is `0`, for any `add` implementation; a nonzero exit can only come from an
assertion aborting the process (the `Except.error` case). -/
theorem main_exit_zero (f : Int → Int → Int) (o : List String) (c : Int)
    (h : main_run f = Except.ok (o, c)) : c = 0 := by
  unfold main_run at h
  cases heq : test_add f ["Running tests..."] with
  | error o' => rw [heq] at h; cases h
  | ok o' => rw [heq] at h; cases h; rfl

/-- Witness for C4 at the actual `add` and the run's actual output. -/
theorem main_exit_zero_witness : (0 : Int) = 0 :=
  main_exit_zero add
    ["Running tests...", "Testing add function...",
     "  ✓ All add tests passed", "", "✓ All tests passed!"] 0
    rfl

/-- C5: `add` is commutative: `add a b = add b a` for all integers. -/
theorem add_comm_thm (a b : Int) : add a b = add b a := by
  unfold add
  rw [Int.add_comm]

/-- C6: the three math-library calls made by `print_hello` yield the
stated values: `multiply 5 3 = 15`, `power 2 8 = 256`, and
`divide 10 4` prints as `"2.50"` under `%.2f` formatting. -/
theorem math_calls_values :
    multiply 5 3 = 15 ∧ power 2 8 = 256 ∧ fmt2 (divide 10 4) = "2.50" := by
  refine ⟨by decide, by decide, ?_⟩
  have hn : ratFloor (divide 10 4 * 100 + 1 / 2) = 250 := by
    unfold ratFloor
    rw [Int.floor_eq_iff]
    constructor <;> norm_num [divide]
  simp only [fmt2, hn]
  decide

/-- C7: the program terminates: `main_run` (the C `main`) (calling `test_add`, which calls
`add`) is a total function whose run evaluates to a final result — the
process runs its sequence of statements to completion and exits. -/
theorem main_terminates : (main_run add).isOk = true := by
  rfl

/-- C8: the program is deterministic: `main_run` (the C `main`) takes no external input, so
any two results of the same run are equal. -/
theorem main_deterministic
    (r₁ r₂ : Except (List String) (List String × Int))
    (h₁ : main_run add = r₁) (h₂ : main_run add = r₂) : r₁ = r₂ := by
  rw [← h₁, ← h₂]

/-- Witness for C8 at the run's actual result. -/
theorem main_deterministic_witness :
    (Except.ok (["Running tests...", "Testing add function...",
                 "  ✓ All add tests passed", "", "✓ All tests passed!"],
                (0 : Int)) :
        Except (List String) (List String × Int)) =
      Except.ok (["Running tests...", "Testing add function...",
                  "  ✓ All add tests passed", "", "✓ All tests passed!"],
                 0) :=
  main_deterministic _ _ rfl rfl

/-- C9: zero is a two-sided identity for `add` on representable `int`
values: `add a 0 = a` and `add 0 a = a`. -/
theorem add_zero_identity (a : Int) (h : inIntRange a) :
    add a 0 = a ∧ add 0 a = a := by
  unfold add
  constructor
  · rw [Int.add_zero]; exact wrap32_eq_of_inIntRange _ h
  · rw [Int.zero_add]; exact wrap32_eq_of_inIntRange _ h

/-- Witness for C9 at `a = 7`. -/
theorem add_zero_identity_witness :
    inIntRange 7 ∧ (add 7 0 = 7 ∧ add 0 7 = 7) :=
  ⟨by decide, add_zero_identity 7 (by decide)⟩

/-- C10: on the successful run, `main_run` (the C `main`)'s console output is exactly the
fixed sequence of lines `"Running tests..."`, `"Testing add function..."`,
`"  ✓ All add tests passed"`, an empty line, `"✓ All tests passed!"`,
with exit code `0`. -/
theorem main_output_exact :
    main_run add =
      Except.ok (["Running tests...", "Testing add function...",
                  "  ✓ All add tests passed", "", "✓ All tests passed!"],
                 0) := by
  rfl
